import Mathlib

/-
Verification of the validation layer of civic-transparency-go-types.

The embedding follows src/validate/validate.go.  The record schema
(package types: the ProvenanceTag / Series / Point / CoordinationSignals
shapes, the enum constants, and the two precompiled regular expressions)
is not part of src/, so those definitions are modelled from the spec and
marked as such.  Go errors are modelled as String (their message),
nil-able errors as Option String, and a *MultiError result as
Option MultiError (none standing for the nil error interface value).
float64 metric fields are modelled as rationals: every check on them is
an order comparison against 0 or 1, which transfers exactly.
-/

namespace CT

/-- Modelled from the spec: the account-age bucket enum constants of the
external types package (closed enumeration; the concrete string values are
representative, only their distinctness matters to validation). -/
def AcctAge_0_7d : String := "0-7d"

/-- Modelled from the spec: account-age bucket constant. -/
def AcctAge_8_30d : String := "8-30d"

/-- Modelled from the spec: account-age bucket constant. -/
def AcctAge_1_6m : String := "1-6m"

/-- Modelled from the spec: account-age bucket constant. -/
def AcctAge_6_24m : String := "6-24m"

/-- Modelled from the spec: account-age bucket constant. -/
def AcctAge_24mPlus : String := "24m+"

/-- Modelled from the spec: account-type enum constant. -/
def AcctTypePerson : String := "person"

/-- Modelled from the spec: account-type enum constant. -/
def AcctTypeOrg : String := "org"

/-- Modelled from the spec: account-type enum constant. -/
def AcctTypeMedia : String := "media"

/-- Modelled from the spec: account-type enum constant. -/
def AcctTypePublicOfficial : String := "public_official"

/-- Modelled from the spec: account-type enum constant. -/
def AcctTypeUnverified : String := "unverified"

/-- Modelled from the spec: account-type enum constant. -/
def AcctTypeDeclaredAutomation : String := "declared_automation"

/-- Modelled from the spec: automation-flag enum constant. -/
def AutomationManual : String := "manual"

/-- Modelled from the spec: automation-flag enum constant. -/
def AutomationScheduled : String := "scheduled"

/-- Modelled from the spec: automation-flag enum constant. -/
def AutomationAPICLIENT : String := "api_client"

/-- Modelled from the spec: automation-flag enum constant. -/
def AutomationDeclaredBot : String := "declared_bot"

/-- Modelled from the spec: post-kind enum constant. -/
def PostKindOriginal : String := "original"

/-- Modelled from the spec: post-kind enum constant. -/
def PostKindReshare : String := "reshare"

/-- Modelled from the spec: post-kind enum constant. -/
def PostKindQuote : String := "quote"

/-- Modelled from the spec: post-kind enum constant. -/
def PostKindReply : String := "reply"

/-- Modelled from the spec: client-family enum constant. -/
def ClientWeb : String := "web"

/-- Modelled from the spec: client-family enum constant. -/
def ClientMobile : String := "mobile"

/-- Modelled from the spec: client-family enum constant. -/
def ClientThirdParty : String := "third_party"

/-- Modelled from the spec: media-provenance enum constant. -/
def MediaProvC2PA : String := "c2pa"

/-- Modelled from the spec: media-provenance enum constant. -/
def MediaProvHash : String := "hash"

/-- Modelled from the spec: media-provenance enum constant. -/
def MediaProvNone : String := "none"

/-- Modelled from the spec: the fixed interval constant, exactly the
string "minute". -/
def IntervalMinute : String := "minute"

/-- Modelled from the spec: a lowercase hex digit, the character class
of the precompiled pattern ReHex8. -/
def isLowerHexDigit (c : Char) : Bool :=
  (Char.ofNat 48 ≤ c && c ≤ Char.ofNat 57) || (Char.ofNat 97 ≤ c && c ≤ Char.ofNat 102)

/-- Modelled from the spec: the precompiled matcher ReHex8 for the
pattern of 8 lowercase hexadecimal characters anchored at both ends. -/
def ReHex8Match (s : String) : Bool :=
  s.length = 8 && s.data.all isLowerHexDigit

/-- Modelled from the spec: an uppercase ASCII letter. -/
def isUpperAlpha (c : Char) : Bool :=
  Char.ofNat 65 ≤ c && c ≤ Char.ofNat 90

/-- Modelled from the spec: an uppercase ASCII letter or decimal digit. -/
def isUpperAlphaNum (c : Char) : Bool :=
  isUpperAlpha c || (Char.ofNat 48 ≤ c && c ≤ Char.ofNat 57)

/-- Modelled from the spec: the precompiled matcher ReISO3166 for an
ISO-3166-like country or country-subdivision code, e.g. "US" or "US-CA":
two uppercase letters, optionally followed by a hyphen and one to three
uppercase alphanumerics. -/
def ReISO3166Match (s : String) : Bool :=
  match s.data with
  | c1 :: c2 :: rest =>
      isUpperAlpha c1 && isUpperAlpha c2 &&
      (match rest with
       | [] => true
       | h :: sub =>
           h = Char.ofNat 45 && sub.length ≥ 1 && sub.length ≤ 3 &&
           sub.all isUpperAlphaNum)
  | _ => false

/-- Modelled from the spec: the ProvenanceTag record shape of the external
types package.  All eight fields are string-typed in the schema. -/
structure ProvenanceTag where
  AcctAgeBucket : String
  AcctType : String
  AutomationFlag : String
  PostKind : String
  ClientFamily : String
  MediaProvenance : String
  DedupHash : String
  OriginHint : String
deriving DecidableEq, Repr

/-- Modelled from the spec: the CoordinationSignals sub-record, with a
burst score, a synchrony index (both float64, modelled as rationals) and
a duplication-cluster count (signed integer). -/
structure CoordinationSignals where
  BurstScore : ℚ
  SynchronyIndex : ℚ
  DuplicationClusters : Int
deriving DecidableEq, Repr

/-- Modelled from the spec: one time-bucketed Point of a Series, with a
volume count and coordination-signal metrics. -/
structure Point where
  Volume : Int
  ReshareRatio : ℚ
  RecycledContentRate : ℚ
  CoordinationSignals : CoordinationSignals
deriving DecidableEq, Repr

/-- Modelled from the spec: the Series record.  GeneratedAt models the
generation timestamp; time.Time.IsZero is modelled as equality with 0. -/
structure Series where
  Topic : String
  GeneratedAt : Nat
  Interval : String
  Points : List Point
deriving DecidableEq, Repr

/-- MultiError is the aggregator of src/validate/validate.go: a growable
ordered list of recorded errors, each modelled by its message. -/
structure MultiError where
  errs : List String
deriving DecidableEq, Repr

/-- Append from validate.go: a no-op on a nil error, otherwise records
the error at the end of the list. -/
def MultiError.Append (m : MultiError) (err : Option String) : MultiError :=
  match err with
  | none => m
  | some e => ⟨m.errs ++ [e]⟩

/-- Error from validate.go: the empty string when nothing was recorded,
otherwise the recorded messages joined by "; " in append order. -/
def MultiError.ErrorMsg (m : MultiError) : String :=
  if m.errs = [] then "" else String.intercalate "; " m.errs

/-- NilOrError from validate.go: nil when empty, otherwise the aggregator
itself as the error value. -/
def MultiError.NilOrError (m : MultiError) : Option MultiError :=
  if m.errs = [] then none else some m

/-- validateISO3166MaybeEmpty from validate.go: accepts the empty string
or a string matching the ISO-3166 pattern. -/
def validateISO3166MaybeEmpty (code : String) : Option String :=
  if code = "" then none
  else if !(ReISO3166Match code) then
    some "origin_hint/country must match ISO-3166 pattern (e.g., US or US-CA)"
  else none

/-- ValidateProvenanceTag from validate.go: each switch statement is the
membership test of the field in its closed constant set, appending the
corresponding failure in the default branch; then the dedup-hash pattern
check, then the origin-hint check. -/
def ValidateProvenanceTag (t : ProvenanceTag) : Option MultiError :=
  let me : MultiError := ⟨[]⟩
  let me := if [AcctAge_0_7d, AcctAge_8_30d, AcctAge_1_6m, AcctAge_6_24m,
      AcctAge_24mPlus].contains t.AcctAgeBucket then me
    else me.Append (some "invalid acct_age_bucket")
  let me := if [AcctTypePerson, AcctTypeOrg, AcctTypeMedia,
      AcctTypePublicOfficial, AcctTypeUnverified,
      AcctTypeDeclaredAutomation].contains t.AcctType then me
    else me.Append (some "invalid acct_type")
  let me := if [AutomationManual, AutomationScheduled, AutomationAPICLIENT,
      AutomationDeclaredBot].contains t.AutomationFlag then me
    else me.Append (some "invalid automation_flag")
  let me := if [PostKindOriginal, PostKindReshare, PostKindQuote,
      PostKindReply].contains t.PostKind then me
    else me.Append (some "invalid post_kind")
  let me := if [ClientWeb, ClientMobile, ClientThirdParty].contains
      t.ClientFamily then me
    else me.Append (some "invalid client_family")
  let me := if [MediaProvC2PA, MediaProvHash, MediaProvNone].contains
      t.MediaProvenance then me
    else me.Append (some "invalid media_provenance")
  let me := if !(ReHex8Match t.DedupHash) then
      me.Append (some "dedup_hash must be 8 lowercase hex chars")
    else me
  let me := me.Append (validateISO3166MaybeEmpty t.OriginHint)
  me.NilOrError

/-- The six per-point checks of ValidateSeries, for the point at index i,
in source order, run against the aggregator. -/
def validatePoint (i : Nat) (p : Point) (me : MultiError) : MultiError :=
  let me := if p.Volume < 0 then
      me.Append (some ("points[" ++ toString i ++ "].volume must be ≥0"))
    else me
  let me := if p.ReshareRatio < 0 ∨ p.ReshareRatio > 1 then
      me.Append (some ("points[" ++ toString i ++ "].reshare_ratio must be 0–1"))
    else me
  let me := if p.RecycledContentRate < 0 ∨ p.RecycledContentRate > 1 then
      me.Append (some ("points[" ++ toString i ++ "].recycled_content_rate must be 0–1"))
    else me
  let me := if p.CoordinationSignals.BurstScore < 0 ∨ p.CoordinationSignals.BurstScore > 1 then
      me.Append (some ("points[" ++ toString i ++ "].coordination_signals.burst_score must be 0–1"))
    else me
  let me := if p.CoordinationSignals.SynchronyIndex < 0 ∨ p.CoordinationSignals.SynchronyIndex > 1 then
      me.Append (some ("points[" ++ toString i ++ "].coordination_signals.synchrony_index must be 0–1"))
    else me
  let me := if p.CoordinationSignals.DuplicationClusters < 0 then
      me.Append (some ("points[" ++ toString i ++ "].coordination_signals.duplication_clusters must be ≥0"))
    else me
  me

/-- ValidateSeries from validate.go: the four entity-level checks, then
the per-point checks over the points in ascending index order. -/
def ValidateSeries (s : Series) : Option MultiError :=
  let me : MultiError := ⟨[]⟩
  let me := if s.Topic = "" then me.Append (some "topic must be non-empty") else me
  let me := if s.GeneratedAt = 0 then me.Append (some "generated_at must be set") else me
  let me := if s.Interval ≠ IntervalMinute then
      me.Append (some "interval must be \"minute\"") else me
  let me := if s.Points.length = 0 then
      me.Append (some "series must contain at least one point") else me
  let me := s.Points.enum.foldl (fun m ip => validatePoint ip.1 ip.2 m) me
  me.NilOrError

/-- MustProvenanceTag from validate.go: calls the validator and panics on
a non-nil error.  The panic is modelled as Except.error carrying the
validator's error; normal return as Except.ok. -/
def MustProvenanceTag (t : ProvenanceTag) : Except MultiError Unit :=
  match ValidateProvenanceTag t with
  | some err => Except.error err
  | none => Except.ok ()

/-- MustSeries from validate.go: calls the validator and panics on a
non-nil error, modelled as for MustProvenanceTag. -/
def MustSeries (s : Series) : Except MultiError Unit :=
  match ValidateSeries s with
  | some err => Except.error err
  | none => Except.ok ()

/-- Go passes the records to the validators by pointer and dereferences
without a nil guard; a nil pointer is modelled as none and the runtime
fault on dereference as the outer none. -/
def ValidateProvenanceTagPtr (t : Option ProvenanceTag) : Option (Option MultiError) :=
  match t with
  | none => none
  | some t => some (ValidateProvenanceTag t)

/-- Pointer-level ValidateSeries: nil argument faults, modelled as none. -/
def ValidateSeriesPtr (s : Option Series) : Option (Option MultiError) :=
  match s with
  | none => none
  | some s => some (ValidateSeries s)

/-- The eight checks of ValidateProvenanceTag as a list of independent
outcomes, in source order: the six enum memberships, the dedup-hash
pattern, the origin hint.  none means the check passed. -/
def provenanceChecks (t : ProvenanceTag) : List (Option String) :=
  [ if [AcctAge_0_7d, AcctAge_8_30d, AcctAge_1_6m, AcctAge_6_24m,
      AcctAge_24mPlus].contains t.AcctAgeBucket then none
    else some "invalid acct_age_bucket",
    if [AcctTypePerson, AcctTypeOrg, AcctTypeMedia, AcctTypePublicOfficial,
      AcctTypeUnverified, AcctTypeDeclaredAutomation].contains t.AcctType then none
    else some "invalid acct_type",
    if [AutomationManual, AutomationScheduled, AutomationAPICLIENT,
      AutomationDeclaredBot].contains t.AutomationFlag then none
    else some "invalid automation_flag",
    if [PostKindOriginal, PostKindReshare, PostKindQuote,
      PostKindReply].contains t.PostKind then none
    else some "invalid post_kind",
    if [ClientWeb, ClientMobile, ClientThirdParty].contains t.ClientFamily then none
    else some "invalid client_family",
    if [MediaProvC2PA, MediaProvHash, MediaProvNone].contains t.MediaProvenance then none
    else some "invalid media_provenance",
    if !(ReHex8Match t.DedupHash) then
      some "dedup_hash must be 8 lowercase hex chars"
    else none,
    validateISO3166MaybeEmpty t.OriginHint ]

/-- The failure descriptions of a ProvenanceTag, in check order. -/
def provenanceViolations (t : ProvenanceTag) : List String :=
  (provenanceChecks t).filterMap id

/-- The six per-point checks for the point at index i, in source order. -/
def pointChecks (i : Nat) (p : Point) : List (Option String) :=
  [ if p.Volume < 0 then
      some ("points[" ++ toString i ++ "].volume must be ≥0") else none,
    if p.ReshareRatio < 0 ∨ p.ReshareRatio > 1 then
      some ("points[" ++ toString i ++ "].reshare_ratio must be 0–1") else none,
    if p.RecycledContentRate < 0 ∨ p.RecycledContentRate > 1 then
      some ("points[" ++ toString i ++ "].recycled_content_rate must be 0–1") else none,
    if p.CoordinationSignals.BurstScore < 0 ∨ p.CoordinationSignals.BurstScore > 1 then
      some ("points[" ++ toString i ++ "].coordination_signals.burst_score must be 0–1") else none,
    if p.CoordinationSignals.SynchronyIndex < 0 ∨ p.CoordinationSignals.SynchronyIndex > 1 then
      some ("points[" ++ toString i ++ "].coordination_signals.synchrony_index must be 0–1") else none,
    if p.CoordinationSignals.DuplicationClusters < 0 then
      some ("points[" ++ toString i ++ "].coordination_signals.duplication_clusters must be ≥0") else none ]

/-- The failure descriptions of the point at index i, in check order. -/
def pointViolations (i : Nat) (p : Point) : List String :=
  (pointChecks i p).filterMap id

/-- The four entity-level checks of ValidateSeries, in source order. -/
def seriesEntityChecks (s : Series) : List (Option String) :=
  [ if s.Topic = "" then some "topic must be non-empty" else none,
    if s.GeneratedAt = 0 then some "generated_at must be set" else none,
    if s.Interval ≠ IntervalMinute then some "interval must be \"minute\"" else none,
    if s.Points.length = 0 then some "series must contain at least one point" else none ]

/-- The failure descriptions of a Series: entity-level checks first, then
the per-point failures in ascending index order. -/
def seriesViolations (s : Series) : List String :=
  (seriesEntityChecks s).filterMap id ++
    (s.Points.enum.map (fun ip => pointViolations ip.1 ip.2)).flatten

lemma errs_Append (m : MultiError) (o : Option String) :
    (m.Append o).errs = m.errs ++ o.toList := by
  cases o <;> simp [MultiError.Append]

lemma ite_Append_skip (c : Prop) [Decidable c] (m : MultiError) (x : String) :
    (if c then m else m.Append (some x)) = m.Append (if c then none else some x) := by
  split <;> rfl

lemma ite_Append_hit (c : Prop) [Decidable c] (m : MultiError) (x : String) :
    (if c then m.Append (some x) else m) = m.Append (if c then some x else none) := by
  split <;> rfl

lemma filterMap_id_cons (o : Option String) (os : List (Option String)) :
    List.filterMap id (o :: os) = o.toList ++ List.filterMap id os := by
  cases o <;> simp

lemma nilOrError_congr {m : MultiError} {l : List String} (h : m.errs = l) :
    m.NilOrError = MultiError.NilOrError ⟨l⟩ := by
  cases m; cases h; rfl

lemma validateProvenanceTag_eq (t : ProvenanceTag) :
    ValidateProvenanceTag t = MultiError.NilOrError ⟨provenanceViolations t⟩ := by
  simp only [ValidateProvenanceTag, ite_Append_skip, ite_Append_hit]
  apply nilOrError_congr
  simp [provenanceViolations, provenanceChecks, errs_Append, filterMap_id_cons,
    List.append_assoc]

lemma validatePoint_errs (i : Nat) (p : Point) (m : MultiError) :
    (validatePoint i p m).errs = m.errs ++ pointViolations i p := by
  simp only [validatePoint, ite_Append_hit]
  simp [pointViolations, pointChecks, errs_Append, filterMap_id_cons,
    List.append_assoc]

lemma points_fold (l : List (Nat × Point)) (m : MultiError) :
    (l.foldl (fun me ip => validatePoint ip.1 ip.2 me) m).errs
      = m.errs ++ (l.map (fun ip => pointViolations ip.1 ip.2)).flatten := by
  induction l generalizing m with
  | nil => simp
  | cons hd tl ih => simp [List.foldl, ih, validatePoint_errs, List.append_assoc]

lemma validateSeries_eq (s : Series) :
    ValidateSeries s = MultiError.NilOrError ⟨seriesViolations s⟩ := by
  simp only [ValidateSeries, ite_Append_hit]
  apply nilOrError_congr
  rw [points_fold]
  simp [seriesViolations, seriesEntityChecks, errs_Append, filterMap_id_cons,
    List.append_assoc]

lemma foldl_Append_errs (os : List (Option String)) (m : MultiError) :
    (os.foldl MultiError.Append m).errs = m.errs ++ os.filterMap id := by
  induction os generalizing m with
  | nil => simp
  | cons o os ih =>
    cases o <;> simp [List.foldl, MultiError.Append, ih, List.append_assoc]

lemma errorMsg_of_ne_nil {m : MultiError} (h : m.errs ≠ []) :
    m.ErrorMsg = String.intercalate "; " m.errs := by
  simp [MultiError.ErrorMsg, h]

lemma nilOrError_of_ne_nil {m : MultiError} (h : m.errs ≠ []) :
    m.NilOrError = some m := by
  simp [MultiError.NilOrError, h]

/-- C1: for every record with at least one violation, the validator
returns an error whose recorded failures are exactly the violation
descriptions of the fixed check order (for a ProvenanceTag the six enum
fields in declaration order, then the dedup hash, then the origin hint;
for a Series the four entity-level checks, then the six per-point checks
for each point in ascending index order), and whose message is those
descriptions joined by "; ".  No violation suppresses or reorders
another. -/
theorem validators_report_all_in_order :
    (∀ t : ProvenanceTag, provenanceViolations t ≠ [] →
      ∃ me : MultiError, ValidateProvenanceTag t = some me ∧
        me.errs = provenanceViolations t ∧
        me.ErrorMsg = String.intercalate "; " (provenanceViolations t)) ∧
    (∀ s : Series, seriesViolations s ≠ [] →
      ∃ me : MultiError, ValidateSeries s = some me ∧
        me.errs = seriesViolations s ∧
        me.ErrorMsg = String.intercalate "; " (seriesViolations s)) := by
  constructor
  · intro t h
    refine ⟨⟨provenanceViolations t⟩, ?_, rfl, ?_⟩
    · rw [validateProvenanceTag_eq]
      exact nilOrError_of_ne_nil h
    · exact errorMsg_of_ne_nil h
  · intro s h
    refine ⟨⟨seriesViolations s⟩, ?_, rfl, ?_⟩
    · rw [validateSeries_eq]
      exact nilOrError_of_ne_nil h
    · exact errorMsg_of_ne_nil h

/-- Witness for C1 at a ProvenanceTag with every field empty and a Series
with every entity-level field invalid. -/
theorem validators_report_all_in_order_witness :
    (∃ me : MultiError,
      ValidateProvenanceTag ⟨"", "", "", "", "", "", "", ""⟩ = some me ∧
      me.errs = provenanceViolations ⟨"", "", "", "", "", "", "", ""⟩ ∧
      me.ErrorMsg = String.intercalate "; "
        (provenanceViolations ⟨"", "", "", "", "", "", "", ""⟩)) ∧
    (∃ me : MultiError, ValidateSeries ⟨"", 0, "", []⟩ = some me ∧
      me.errs = seriesViolations ⟨"", 0, "", []⟩ ∧
      me.ErrorMsg = String.intercalate "; " (seriesViolations ⟨"", 0, "", []⟩)) :=
  ⟨validators_report_all_in_order.1 ⟨"", "", "", "", "", "", "", ""⟩ (by decide),
   validators_report_all_in_order.2 ⟨"", 0, "", []⟩ (by decide)⟩

/-- C3: NilOrError returns the nil error value exactly when zero failures
have been recorded, and a returned non-nil error always wraps at least
one recorded error. -/
theorem nilOrError_nil_iff_no_failures :
    ∀ m : MultiError,
      (m.NilOrError = none ↔ m.errs = []) ∧
      (∀ me : MultiError, m.NilOrError = some me → me.errs ≠ []) := by
  intro m
  constructor
  · cases h : decide (m.errs = []) with
    | true => simp_all [MultiError.NilOrError]
    | false =>
      have h' : m.errs ≠ [] := by simpa using h
      simp [MultiError.NilOrError, h']
  · intro me hme
    by_cases h : m.errs = []
    · simp [MultiError.NilOrError, h] at hme
    · rw [nilOrError_of_ne_nil h] at hme
      cases hme
      exact h

/-- Witness for C3: the empty aggregator yields nil, and a one-error
aggregator yields a non-nil error wrapping a non-empty list. -/
theorem nilOrError_nil_iff_no_failures_witness :
    (MultiError.NilOrError ⟨[]⟩ = none) ∧
    ((⟨["e"]⟩ : MultiError).errs ≠ []) :=
  ⟨(nilOrError_nil_iff_no_failures ⟨[]⟩).1.mpr rfl,
   (nilOrError_nil_iff_no_failures ⟨["e"]⟩).2 ⟨["e"]⟩ (by decide)⟩

/-- C7: Append is a no-op on a nil error, otherwise records the error at
the end of the sequence, so after any sequence of appends the recorded
failures are exactly the non-nil appended errors in append order. -/
theorem append_nil_noop_and_order_preserved :
    (∀ m : MultiError, m.Append none = m) ∧
    (∀ (m : MultiError) (e : String), (m.Append (some e)).errs = m.errs ++ [e]) ∧
    (∀ (m : MultiError) (os : List (Option String)),
      (os.foldl MultiError.Append m).errs = m.errs ++ os.filterMap id) :=
  ⟨fun _ => rfl, fun _ _ => rfl, fun m os => foldl_Append_errs os m⟩

/-- C10: the validators dereference their pointer argument without a nil
guard: at the pointer level a nil argument faults (no nil result, no
aggregated error), and on any non-nil argument the pointer-level call is
exactly the record-level validator. -/
theorem validators_fault_on_nil_pointer :
    (ValidateProvenanceTagPtr none = none ∧ ValidateSeriesPtr none = none) ∧
    (∀ t : ProvenanceTag,
      ValidateProvenanceTagPtr (some t) = some (ValidateProvenanceTag t)) ∧
    (∀ s : Series, ValidateSeriesPtr (some s) = some (ValidateSeries s)) :=
  ⟨⟨rfl, rfl⟩, fun _ => rfl, fun _ => rfl⟩

lemma pointViolations_nil {i : Nat} {p : Point}
    (hv : 0 ≤ p.Volume)
    (h1 : 0 ≤ p.ReshareRatio) (h2 : p.ReshareRatio ≤ 1)
    (h3 : 0 ≤ p.RecycledContentRate) (h4 : p.RecycledContentRate ≤ 1)
    (h5 : 0 ≤ p.CoordinationSignals.BurstScore)
    (h6 : p.CoordinationSignals.BurstScore ≤ 1)
    (h7 : 0 ≤ p.CoordinationSignals.SynchronyIndex)
    (h8 : p.CoordinationSignals.SynchronyIndex ≤ 1)
    (h9 : 0 ≤ p.CoordinationSignals.DuplicationClusters) :
    pointViolations i p = [] := by
  simp [pointViolations, pointChecks, not_lt.mpr hv, not_lt.mpr h1, not_lt.mpr h2,
    not_lt.mpr h3, not_lt.mpr h4, not_lt.mpr h5, not_lt.mpr h6, not_lt.mpr h7,
    not_lt.mpr h8, not_lt.mpr h9]

/-- C2: a ProvenanceTag whose six enum fields are named constants, whose
dedup hash matches the 8-lowercase-hex pattern and whose origin hint is
empty or matches the ISO-3166 pattern validates to nil; a Series with
non-empty topic, non-zero timestamp, interval "minute", at least one
point, and every point metric in range validates to nil. -/
theorem valid_records_validate_nil :
    (∀ t : ProvenanceTag,
      [AcctAge_0_7d, AcctAge_8_30d, AcctAge_1_6m, AcctAge_6_24m,
        AcctAge_24mPlus].contains t.AcctAgeBucket = true →
      [AcctTypePerson, AcctTypeOrg, AcctTypeMedia, AcctTypePublicOfficial,
        AcctTypeUnverified, AcctTypeDeclaredAutomation].contains t.AcctType = true →
      [AutomationManual, AutomationScheduled, AutomationAPICLIENT,
        AutomationDeclaredBot].contains t.AutomationFlag = true →
      [PostKindOriginal, PostKindReshare, PostKindQuote,
        PostKindReply].contains t.PostKind = true →
      [ClientWeb, ClientMobile, ClientThirdParty].contains t.ClientFamily = true →
      [MediaProvC2PA, MediaProvHash, MediaProvNone].contains t.MediaProvenance = true →
      ReHex8Match t.DedupHash = true →
      (t.OriginHint = "" ∨ ReISO3166Match t.OriginHint = true) →
      ValidateProvenanceTag t = none) ∧
    (∀ s : Series,
      s.Topic ≠ "" → s.GeneratedAt ≠ 0 → s.Interval = IntervalMinute →
      s.Points ≠ [] →
      (∀ p ∈ s.Points, 0 ≤ p.Volume ∧
        0 ≤ p.ReshareRatio ∧ p.ReshareRatio ≤ 1 ∧
        0 ≤ p.RecycledContentRate ∧ p.RecycledContentRate ≤ 1 ∧
        0 ≤ p.CoordinationSignals.BurstScore ∧ p.CoordinationSignals.BurstScore ≤ 1 ∧
        0 ≤ p.CoordinationSignals.SynchronyIndex ∧
        p.CoordinationSignals.SynchronyIndex ≤ 1 ∧
        0 ≤ p.CoordinationSignals.DuplicationClusters) →
      ValidateSeries s = none) := by
  constructor
  · intro t h1 h2 h3 h4 h5 h6 h7 h8
    rw [validateProvenanceTag_eq]
    have hiso : validateISO3166MaybeEmpty t.OriginHint = none := by
      rcases h8 with h8 | h8 <;> simp [validateISO3166MaybeEmpty, h8]
    have hviol : provenanceViolations t = [] := by
      simp only [provenanceChecks, provenanceViolations, h1, h2, h3, h4, h5, h6, h7, hiso]
      simp
    rw [hviol]
    rfl
  · intro s h1 h2 h3 h4 h5
    rw [validateSeries_eq]
    have hpts : ∀ ip ∈ s.Points.enum, pointViolations ip.1 ip.2 = [] := by
      intro ip hip
      have hmem : ip.2 ∈ s.Points :=
        List.getElem?_mem (List.mem_enum_iff_getElem?.mp hip)
      obtain ⟨hv, ha, hb, hc, hd, he, hf, hg, hh, hi⟩ := h5 ip.2 hmem
      exact pointViolations_nil hv ha hb hc hd he hf hg hh hi
    have hflat : (s.Points.enum.map (fun ip => pointViolations ip.1 ip.2)).flatten = [] := by
      rw [List.flatten_eq_nil_iff]
      intro x hx
      obtain ⟨ip, hip, rfl⟩ := List.mem_map.mp hx
      exact hpts ip hip
    have hviol : seriesViolations s = [] := by
      simp [seriesViolations, seriesEntityChecks, h1, h2, h3, h4, hflat,
        List.length_eq_zero]
    rw [hviol]
    rfl

/-- Witness for C2 at a fully valid ProvenanceTag (with a subdivision
origin hint) and a fully valid one-point Series. -/
theorem valid_records_validate_nil_witness :
    ValidateProvenanceTag ⟨"0-7d", "person", "manual", "original", "web",
      "c2pa", "0123abcd", "US-CA"⟩ = none ∧
    ValidateSeries ⟨"topic", 1, "minute", [⟨0, 0, 1, ⟨1, 0, 0⟩⟩]⟩ = none :=
  ⟨valid_records_validate_nil.1 ⟨"0-7d", "person", "manual", "original", "web",
      "c2pa", "0123abcd", "US-CA"⟩ (by decide) (by decide) (by decide) (by decide)
      (by decide) (by decide) (by decide) (Or.inr (by decide)),
   valid_records_validate_nil.2 ⟨"topic", 1, "minute", [⟨0, 0, 1, ⟨1, 0, 0⟩⟩]⟩
      (by decide) (by decide) rfl (by decide) (by decide)⟩

/-- C4: a Series with an empty Points sequence and otherwise valid
entity-level fields reports exactly the single failure "series must
contain at least one point" and no per-point failure. -/
theorem empty_points_single_failure :
    ∀ s : Series, s.Points = [] → s.Topic ≠ "" → s.GeneratedAt ≠ 0 →
      s.Interval = IntervalMinute →
      ∃ me : MultiError, ValidateSeries s = some me ∧
        me.errs = ["series must contain at least one point"] := by
  intro s hp h1 h2 h3
  have hviol : seriesViolations s = ["series must contain at least one point"] := by
    simp [seriesViolations, seriesEntityChecks, h1, h2, h3, hp]
  refine ⟨⟨seriesViolations s⟩, ?_, by rw [hviol]⟩
  rw [validateSeries_eq]
  exact nilOrError_of_ne_nil (by rw [hviol]; simp)

/-- Witness for C4 at a concrete Series with no points. -/
theorem empty_points_single_failure_witness :
    ∃ me : MultiError, ValidateSeries ⟨"topic", 1, "minute", []⟩ = some me ∧
      me.errs = ["series must contain at least one point"] :=
  empty_points_single_failure ⟨"topic", 1, "minute", []⟩ rfl (by decide)
    (by decide) rfl

/-- C5: the range checks on reshare ratio, recycled-content rate, burst
score and synchrony index are inclusive on both ends: on a point whose
other metrics are in range, the value exactly 0 or exactly 1 produces no
failure, while any value strictly below 0 or strictly above 1 produces
exactly the corresponding out-of-range failure. -/
theorem range_checks_inclusive_bounds :
    ∀ (i : Nat) (x : ℚ),
      ((x = 0 ∨ x = 1) →
        (validatePoint i ⟨0, x, 0, ⟨0, 0, 0⟩⟩ ⟨[]⟩).errs = []) ∧
      ((x < 0 ∨ 1 < x) →
        (validatePoint i ⟨0, x, 0, ⟨0, 0, 0⟩⟩ ⟨[]⟩).errs
          = ["points[" ++ toString i ++ "].reshare_ratio must be 0–1"]) ∧
      ((x = 0 ∨ x = 1) →
        (validatePoint i ⟨0, 0, x, ⟨0, 0, 0⟩⟩ ⟨[]⟩).errs = []) ∧
      ((x < 0 ∨ 1 < x) →
        (validatePoint i ⟨0, 0, x, ⟨0, 0, 0⟩⟩ ⟨[]⟩).errs
          = ["points[" ++ toString i ++ "].recycled_content_rate must be 0–1"]) ∧
      ((x = 0 ∨ x = 1) →
        (validatePoint i ⟨0, 0, 0, ⟨x, 0, 0⟩⟩ ⟨[]⟩).errs = []) ∧
      ((x < 0 ∨ 1 < x) →
        (validatePoint i ⟨0, 0, 0, ⟨x, 0, 0⟩⟩ ⟨[]⟩).errs
          = ["points[" ++ toString i ++ "].coordination_signals.burst_score must be 0–1"]) ∧
      ((x = 0 ∨ x = 1) →
        (validatePoint i ⟨0, 0, 0, ⟨0, x, 0⟩⟩ ⟨[]⟩).errs = []) ∧
      ((x < 0 ∨ 1 < x) →
        (validatePoint i ⟨0, 0, 0, ⟨0, x, 0⟩⟩ ⟨[]⟩).errs
          = ["points[" ++ toString i ++ "].coordination_signals.synchrony_index must be 0–1"]) := by
  intro i x
  have hlow : ∀ y : ℚ, y < 0 → ¬ (1:ℚ) < y :=
    fun y hy => not_lt.mpr (hy.le.trans (by norm_num))
  have hhigh : ∀ y : ℚ, 1 < y → ¬ y < (0:ℚ) :=
    fun y hy => not_lt.mpr ((by norm_num : (0:ℚ) ≤ 1).trans hy.le)
  refine ⟨?_, ?_, ?_, ?_, ?_, ?_, ?_, ?_⟩
  · intro h
    rcases h with rfl | rfl <;>
      (rw [validatePoint_errs]; norm_num [pointViolations, pointChecks])
  · intro hx
    rcases hx with hx | hx
    · rw [validatePoint_errs]
      norm_num [pointViolations, pointChecks, hx, hlow x hx, filterMap_id_cons]
    · rw [validatePoint_errs]
      norm_num [pointViolations, pointChecks, hx, hhigh x hx, filterMap_id_cons]
  · intro h
    rcases h with rfl | rfl <;>
      (rw [validatePoint_errs]; norm_num [pointViolations, pointChecks])
  · intro hx
    rcases hx with hx | hx
    · rw [validatePoint_errs]
      norm_num [pointViolations, pointChecks, hx, hlow x hx, filterMap_id_cons]
    · rw [validatePoint_errs]
      norm_num [pointViolations, pointChecks, hx, hhigh x hx, filterMap_id_cons]
  · intro h
    rcases h with rfl | rfl <;>
      (rw [validatePoint_errs]; norm_num [pointViolations, pointChecks])
  · intro hx
    rcases hx with hx | hx
    · rw [validatePoint_errs]
      norm_num [pointViolations, pointChecks, hx, hlow x hx, filterMap_id_cons]
    · rw [validatePoint_errs]
      norm_num [pointViolations, pointChecks, hx, hhigh x hx, filterMap_id_cons]
  · intro h
    rcases h with rfl | rfl <;>
      (rw [validatePoint_errs]; norm_num [pointViolations, pointChecks])
  · intro hx
    rcases hx with hx | hx
    · rw [validatePoint_errs]
      norm_num [pointViolations, pointChecks, hx, hlow x hx, filterMap_id_cons]
    · rw [validatePoint_errs]
      norm_num [pointViolations, pointChecks, hx, hhigh x hx, filterMap_id_cons]

/-- Witness for C5: a reshare ratio of exactly 1 passes, a reshare ratio
of 2 yields exactly the reshare-ratio failure. -/
theorem range_checks_inclusive_bounds_witness :
    ((validatePoint 0 ⟨0, 1, 0, ⟨0, 0, 0⟩⟩ ⟨[]⟩).errs = []) ∧
    ((validatePoint 0 ⟨0, 2, 0, ⟨0, 0, 0⟩⟩ ⟨[]⟩).errs
      = ["points[" ++ toString 0 ++ "].reshare_ratio must be 0–1"]) :=
  ⟨(range_checks_inclusive_bounds 0 1).1 (Or.inr rfl),
   (range_checks_inclusive_bounds 0 2).2.1 (Or.inr (by norm_num))⟩

/-- C6: a ProvenanceTag whose AcctType is outside its enumeration and
whose DedupHash is "ZZZZZZZZ", with every other field valid, validates
to an error whose message is exactly
"invalid acct_type; dedup_hash must be 8 lowercase hex chars". -/
theorem invalid_acct_type_and_hash_message :
    ∀ t : ProvenanceTag,
      ¬ ([AcctTypePerson, AcctTypeOrg, AcctTypeMedia, AcctTypePublicOfficial,
        AcctTypeUnverified, AcctTypeDeclaredAutomation].contains t.AcctType = true) →
      t.DedupHash = "ZZZZZZZZ" →
      [AcctAge_0_7d, AcctAge_8_30d, AcctAge_1_6m, AcctAge_6_24m,
        AcctAge_24mPlus].contains t.AcctAgeBucket = true →
      [AutomationManual, AutomationScheduled, AutomationAPICLIENT,
        AutomationDeclaredBot].contains t.AutomationFlag = true →
      [PostKindOriginal, PostKindReshare, PostKindQuote,
        PostKindReply].contains t.PostKind = true →
      [ClientWeb, ClientMobile, ClientThirdParty].contains t.ClientFamily = true →
      [MediaProvC2PA, MediaProvHash, MediaProvNone].contains t.MediaProvenance = true →
      (t.OriginHint = "" ∨ ReISO3166Match t.OriginHint = true) →
      ∃ me : MultiError, ValidateProvenanceTag t = some me ∧
        me.ErrorMsg = "invalid acct_type; dedup_hash must be 8 lowercase hex chars" := by
  intro t h2 hhash h1 h3 h4 h5 h6 h8
  have hiso : validateISO3166MaybeEmpty t.OriginHint = none := by
    rcases h8 with h8 | h8 <;> simp [validateISO3166MaybeEmpty, h8]
  have hhex : ReHex8Match t.DedupHash = false := by
    rw [hhash]; decide
  have hviol : provenanceViolations t =
      ["invalid acct_type", "dedup_hash must be 8 lowercase hex chars"] := by
    simp only [provenanceViolations, provenanceChecks, h1, h2, h3, h4, h5, h6,
      hhex, hiso]
    simp
  rw [validateProvenanceTag_eq, hviol]
  exact ⟨⟨["invalid acct_type", "dedup_hash must be 8 lowercase hex chars"]⟩,
    by decide, by decide⟩

/-- Witness for C6 at a concrete tag with AcctType "bogus" and hash
"ZZZZZZZZ". -/
theorem invalid_acct_type_and_hash_message_witness :
    ∃ me : MultiError,
      ValidateProvenanceTag ⟨"0-7d", "bogus", "manual", "original", "web",
        "c2pa", "ZZZZZZZZ", ""⟩ = some me ∧
      me.ErrorMsg = "invalid acct_type; dedup_hash must be 8 lowercase hex chars" :=
  invalid_acct_type_and_hash_message ⟨"0-7d", "bogus", "manual", "original",
    "web", "c2pa", "ZZZZZZZZ", ""⟩ (by decide) rfl (by decide) (by decide)
    (by decide) (by decide) (by decide) (Or.inl rfl)

/-- C8: the Must wrappers perform exactly the checks of the validators,
adding none of their own: they escalate (modelled as Except.error with
the validator's error) precisely when the validator returns a non-nil
error, and return normally precisely on a valid record. -/
theorem must_wrappers_match_validators :
    (∀ t : ProvenanceTag,
      (MustProvenanceTag t = Except.ok () ↔ ValidateProvenanceTag t = none) ∧
      (∀ me : MultiError, MustProvenanceTag t = Except.error me ↔
        ValidateProvenanceTag t = some me)) ∧
    (∀ s : Series,
      (MustSeries s = Except.ok () ↔ ValidateSeries s = none) ∧
      (∀ me : MultiError, MustSeries s = Except.error me ↔
        ValidateSeries s = some me)) := by
  constructor
  · intro t
    cases h : ValidateProvenanceTag t <;> simp [MustProvenanceTag, h]
  · intro s
    cases h : ValidateSeries s <;> simp [MustSeries, h]

/-- Witness for C8: both wrappers return normally on valid records. -/
theorem must_wrappers_match_validators_witness :
    MustProvenanceTag ⟨"0-7d", "person", "manual", "original", "web", "c2pa",
      "0123abcd", ""⟩ = Except.ok () ∧
    MustSeries ⟨"topic", 1, "minute", [⟨0, 0, 0, ⟨0, 0, 0⟩⟩]⟩ = Except.ok () :=
  ⟨(must_wrappers_match_validators.1 ⟨"0-7d", "person", "manual", "original",
      "web", "c2pa", "0123abcd", ""⟩).1.mpr (by decide),
   (must_wrappers_match_validators.2
      ⟨"topic", 1, "minute", [⟨0, 0, 0, ⟨0, 0, 0⟩⟩]⟩).1.mpr (by decide)⟩

/-- C9: the validators are deterministic pure functions of the record's
field values: two records with identical fields produce identical
results, in particular byte-identical error messages. -/
theorem validators_deterministic_pure :
    (∀ t1 t2 : ProvenanceTag,
      t1.AcctAgeBucket = t2.AcctAgeBucket → t1.AcctType = t2.AcctType →
      t1.AutomationFlag = t2.AutomationFlag → t1.PostKind = t2.PostKind →
      t1.ClientFamily = t2.ClientFamily → t1.MediaProvenance = t2.MediaProvenance →
      t1.DedupHash = t2.DedupHash → t1.OriginHint = t2.OriginHint →
      ValidateProvenanceTag t1 = ValidateProvenanceTag t2 ∧
      (ValidateProvenanceTag t1).map MultiError.ErrorMsg
        = (ValidateProvenanceTag t2).map MultiError.ErrorMsg) ∧
    (∀ s1 s2 : Series,
      s1.Topic = s2.Topic → s1.GeneratedAt = s2.GeneratedAt →
      s1.Interval = s2.Interval → s1.Points = s2.Points →
      ValidateSeries s1 = ValidateSeries s2 ∧
      (ValidateSeries s1).map MultiError.ErrorMsg
        = (ValidateSeries s2).map MultiError.ErrorMsg) := by
  constructor
  · intro t1 t2 h1 h2 h3 h4 h5 h6 h7 h8
    obtain ⟨a1, a2, a3, a4, a5, a6, a7, a8⟩ := t1
    obtain ⟨b1, b2, b3, b4, b5, b6, b7, b8⟩ := t2
    simp only at h1 h2 h3 h4 h5 h6 h7 h8
    subst h1; subst h2; subst h3; subst h4; subst h5; subst h6; subst h7; subst h8
    exact ⟨rfl, rfl⟩
  · intro s1 s2 h1 h2 h3 h4
    obtain ⟨a1, a2, a3, a4⟩ := s1
    obtain ⟨b1, b2, b3, b4⟩ := s2
    simp only at h1 h2 h3 h4
    subst h1; subst h2; subst h3; subst h4
    exact ⟨rfl, rfl⟩

/-- Witness for C9: validating the same concrete record twice yields the
same result. -/
theorem validators_deterministic_pure_witness :
    ValidateProvenanceTag ⟨"", "", "", "", "", "", "", ""⟩
      = ValidateProvenanceTag ⟨"", "", "", "", "", "", "", ""⟩ ∧
    ValidateSeries ⟨"", 0, "", []⟩ = ValidateSeries ⟨"", 0, "", []⟩ :=
  ⟨(validators_deterministic_pure.1 ⟨"", "", "", "", "", "", "", ""⟩
      ⟨"", "", "", "", "", "", "", ""⟩ rfl rfl rfl rfl rfl rfl rfl rfl).1,
   (validators_deterministic_pure.2 ⟨"", 0, "", []⟩ ⟨"", 0, "", []⟩
      rfl rfl rfl rfl).1⟩

end CT
